import Mathlib

/-!
Shallow embedding of `packages/pwa/app/commerce-api/hooks/useCustomerProductLists.js`.

The hook keeps a module-level `eventQueue` of deferred user actions (add/remove)
and a context snapshot `customerProductLists`.  We model:

* the snapshot (`CustomerProductLists`), its lists and items;
* the per-event drain step of `processEventQueue` (`drainStep`) and the
  drain loop itself (`processEventQueue`);
* the direct store calls (`getCustomerProductLists`,
  `createCustomerProductList`, `createCustomerProductListItem`,
  `updateCustomerProductListItem`, `fetchOrCreateProductLists`,
  `deleteCustomerProductListItem`) as functions from the API responses they
  consume (passed in explicitly, with their `isError` flags) to the list of
  API calls they issue plus either a raised error or the new snapshot;
* the `useEffect` guard that triggers the drain (`drainTriggerFires`).

JavaScript conventions mapped into the embedding:
* `undefined`/absent values become `Option`/`none` (an absent snapshot, or a
  snapshot whose `data` field is missing, is modelled as `none`);
* a thrown error becomes `Except.error ()`;
* optional callbacks `onSuccess?.()` / `onError?.()` are modelled by the
  booleans `hasOnSuccess` / `hasOnError` on the queued event, and the calls
  actually performed are recorded as a `CallbackResult`;
* whether the awaited request chain of a queued event throws is the event's
  `requestFails` flag (the drain only observes success or a thrown error).
-/

namespace PwaKit

/-- An item of a customer product list (`productId`, `quantity`, and the
server-assigned item `id` used by update/delete). -/
structure ProductListItem where
  id : String
  productId : String
  quantity : Nat
deriving DecidableEq

/-- A customer product list: server id, `type` tag (e.g. the wishlist type),
and its items (`customerProductListItems`). -/
structure ProductList where
  id : String
  type : String
  customerProductListItems : List ProductListItem
deriving DecidableEq

/-- The `customerProductLists` context snapshot: the `data` collection of
lists plus the other server-provided fields, carried opaquely as `extra`
(they are spread unchanged by `...customerProductLists`). -/
structure CustomerProductLists where
  data : List ProductList
  extra : List (String × String)
deriving DecidableEq

/-- The request body built by `addItemToWishlist` / `updateItemToWishlist`:
`{productId, priority: 1, quantity, public: false, type: 'product'}`.
The JS field `public` is rendered `isPublic`. -/
structure ItemRequestBody where
  productId : String
  priority : Nat
  quantity : Nat
  isPublic : Bool
  type : String
deriving DecidableEq

/-- The API calls the hook can issue against the commerce client. -/
inductive ApiCall where
  | getLists
  | createList (listType : String)
  | createItem (listId : String) (body : ItemRequestBody)
  | updateItem (listId : String) (itemId : String) (body : ItemRequestBody)
  | deleteItem (listId : String) (itemId : String)
deriving DecidableEq

/-- `eventActions`: the two queued action kinds. -/
inductive EventAction where
  | add
  | remove
deriving DecidableEq

/-- A queued event: its `action`, the payload `event.item.id` /
`event.item.quantity`, `event.listId` (used by remove), whether the optional
callbacks are present, and whether its awaited request chain throws. -/
structure QueuedEvent where
  action : EventAction
  itemId : String
  itemQuantity : Nat
  listId : String
  hasOnSuccess : Bool
  hasOnError : Bool
  requestFails : Bool
deriving DecidableEq

/-- Which caller-supplied callback a processed event ended up invoking:
`onSuccess` with its argument (`none` = called with no argument, as in the
remove branch), `onError`, or no callback at all (the relevant optional
callback was absent). -/
inductive CallbackResult where
  | successCB (arg : Option Nat)
  | errorCB
  | noCB
deriving DecidableEq

/-- The record of one drained event: the event itself, the API calls issued
while processing it (in order), and the callback invoked for it. -/
structure ProcessedEvent where
  event : QueuedEvent
  requests : List ApiCall
  result : CallbackResult
deriving DecidableEq

/-- Body built by `addItemToWishlist(productId, quantity, wishlistId)`. -/
def addItemBody (productId : String) (quantity : Nat) : ItemRequestBody :=
  { productId := productId, priority := 1, quantity := quantity,
    isPublic := false, type := "product" }

/-- Body built by `updateItemToWishlist`: the quantity sent is
`productListItem.quantity + quantity` (additive merge). -/
def updateItemBody (productId : String) (productListItem : ProductListItem)
    (quantity : Nat) : ItemRequestBody :=
  { productId := productId, priority := 1,
    quantity := productListItem.quantity + quantity,
    isPublic := false, type := "product" }

/-- `getProductListPerType(type)`: `customerProductLists?.data.find(list =>
list.type === type)`. -/
def getProductListPerType (snapshot : Option CustomerProductLists)
    (listType : String) : Option ProductList :=
  match snapshot with
  | none => none
  | some s => s.data.find? (fun list => list.type == listType)

/-- One iteration of the `while` loop of `processEventQueue`, applied to the
head event.  Returns the processed-event record and whether the iteration
executed a `return` statement (terminating the whole drain invocation).

* `add`, wishlist lookup `undefined`: reading `.customerProductListItems`
  throws, the `catch` runs `event.onError?.()`, the loop continues.
* `add`, item found: on request success the code runs
  `return event.onSuccess(event.item.quantity)` — an unguarded call, so when
  `onSuccess` is absent it throws (caught, `onError?.()`, loop continues);
  when present it is invoked with the requested quantity and the `return`
  terminates the drain.  The update request body carries the summed
  quantity, and its success cascades a re-fetch (`getLists`).
* `add`, item absent: on request success the code runs
  `return event.onSuccess?.(event.item.quantity)`, terminating the drain
  whether or not the callback is present.
* `remove`: `deleteCustomerProductListItem` then `event.onSuccess?.()`;
  `break` continues the loop.  A thrown request error in any branch is
  caught and routed to `event.onError?.()`, and the loop continues. -/
def drainStep (snapshot : Option CustomerProductLists) (wishlistType : String)
    (event : QueuedEvent) : ProcessedEvent × Bool :=
  match event.action with
  | .add =>
    match getProductListPerType snapshot wishlistType with
    | none =>
      (⟨event, [], if event.hasOnError then .errorCB else .noCB⟩, false)
    | some wishlist =>
      match wishlist.customerProductListItems.find?
          (fun item => item.productId == event.itemId) with
      | some productListItem =>
        if event.requestFails then
          (⟨event,
            [ApiCall.updateItem wishlist.id productListItem.id
              (updateItemBody event.itemId productListItem event.itemQuantity)],
            if event.hasOnError then .errorCB else .noCB⟩, false)
        else if event.hasOnSuccess then
          (⟨event,
            [ApiCall.updateItem wishlist.id productListItem.id
              (updateItemBody event.itemId productListItem event.itemQuantity),
             ApiCall.getLists],
            .successCB (some event.itemQuantity)⟩, true)
        else
          (⟨event,
            [ApiCall.updateItem wishlist.id productListItem.id
              (updateItemBody event.itemId productListItem event.itemQuantity),
             ApiCall.getLists],
            if event.hasOnError then .errorCB else .noCB⟩, false)
      | none =>
        if event.requestFails then
          (⟨event,
            [ApiCall.createItem wishlist.id
              (addItemBody event.itemId event.itemQuantity)],
            if event.hasOnError then .errorCB else .noCB⟩, false)
        else
          (⟨event,
            [ApiCall.createItem wishlist.id
              (addItemBody event.itemId event.itemQuantity),
             ApiCall.getLists],
            if event.hasOnSuccess then .successCB (some event.itemQuantity)
            else .noCB⟩, true)
  | .remove =>
    if event.requestFails then
      (⟨event, [ApiCall.deleteItem event.listId event.itemId],
        if event.hasOnError then .errorCB else .noCB⟩, false)
    else
      (⟨event, [ApiCall.deleteItem event.listId event.itemId],
        if event.hasOnSuccess then .successCB none else .noCB⟩, false)

/-- `processEventQueue`: drains the queue head-to-tail.  The closure's
`customerProductLists` snapshot is fixed for the whole invocation.  Returns
the processed-event records in processing order together with the events
left in the queue when the invocation ends (non-empty exactly when an
iteration executed a `return`). -/
def processEventQueue (snapshot : Option CustomerProductLists)
    (wishlistType : String) :
    List QueuedEvent → List ProcessedEvent × List QueuedEvent
  | [] => ([], [])
  | event :: rest =>
    if (drainStep snapshot wishlistType event).2 then
      ([(drainStep snapshot wishlistType event).1], rest)
    else
      ((drainStep snapshot wishlistType event).1 ::
        (processEventQueue snapshot wishlistType rest).1,
       (processEventQueue snapshot wishlistType rest).2)

/-- The guard of the `useEffect` drain trigger:
`eventQueue.length && customerProductLists?.data.length`. -/
def drainTriggerFires (queue : List QueuedEvent)
    (snapshot : Option CustomerProductLists) : Bool :=
  queue.length != 0 &&
    (match snapshot with
     | none => false
     | some s => s.data.length != 0)

/-- A fetch response from `shopperCustomers.getCustomerProductLists`: its
`isError` shape flag and (when not error-shaped) the snapshot payload. -/
structure FetchListsResponse where
  isError : Bool
  payload : CustomerProductLists
deriving DecidableEq

/-- `getCustomerProductLists()`: issues the fetch, throws on an error-shaped
response, otherwise stores the response as the new snapshot and returns it. -/
def getCustomerProductLists (response : FetchListsResponse) :
    List ApiCall × Except Unit CustomerProductLists :=
  ([ApiCall.getLists],
   if response.isError then Except.error () else Except.ok response.payload)

/-- `createCustomerProductList(requestBody)`: issues the create, throws on an
error-shaped response, otherwise re-fetches the full collection (which sets
the snapshot). -/
def createCustomerProductList (listType : String) (createIsError : Bool)
    (refetch : FetchListsResponse) :
    List ApiCall × Except Unit CustomerProductLists :=
  if createIsError then ([ApiCall.createList listType], Except.error ())
  else
    (ApiCall.createList listType :: (getCustomerProductLists refetch).1,
     (getCustomerProductLists refetch).2)

/-- `createCustomerProductListItem(item, listId)`: issues the create, throws
on an error-shaped response, otherwise re-fetches the full collection. -/
def createCustomerProductListItem (item : ItemRequestBody) (listId : String)
    (createIsError : Bool) (refetch : FetchListsResponse) :
    List ApiCall × Except Unit CustomerProductLists :=
  if createIsError then ([ApiCall.createItem listId item], Except.error ())
  else
    (ApiCall.createItem listId item :: (getCustomerProductLists refetch).1,
     (getCustomerProductLists refetch).2)

/-- `updateCustomerProductListItem(item, listId, itemId)`: issues the update,
throws on an error-shaped response, otherwise re-fetches the full
collection. -/
def updateCustomerProductListItem (item : ItemRequestBody)
    (listId itemId : String) (updateIsError : Bool)
    (refetch : FetchListsResponse) :
    List ApiCall × Except Unit CustomerProductLists :=
  if updateIsError then
    ([ApiCall.updateItem listId itemId item], Except.error ())
  else
    (ApiCall.updateItem listId itemId item :: (getCustomerProductLists refetch).1,
     (getCustomerProductLists refetch).2)

/-- `fetchOrCreateProductLists(type)`: fetches all lists (throwing on an
error-shaped response); if the fetched `data` is non-empty and some list has
the requested type, stores the fetched response as the snapshot; otherwise
creates a list of that type (throwing on an error-shaped response) and
re-fetches the full collection. -/
def fetchOrCreateProductLists (listType : String)
    (fetchResponse : FetchListsResponse) (createIsError : Bool)
    (refetch : FetchListsResponse) :
    List ApiCall × Except Unit CustomerProductLists :=
  if fetchResponse.isError then ([ApiCall.getLists], Except.error ())
  else if fetchResponse.payload.data.length != 0 &&
      fetchResponse.payload.data.any (fun list => list.type == listType) then
    ([ApiCall.getLists], Except.ok fetchResponse.payload)
  else if createIsError then
    ([ApiCall.getLists, ApiCall.createList listType], Except.error ())
  else
    (ApiCall.getLists :: ApiCall.createList listType ::
      (getCustomerProductLists refetch).1,
     (getCustomerProductLists refetch).2)

/-- The per-list edit `deleteCustomerProductListItem` applies locally: the
list matching `listId` has the item with the given id filtered out; other
lists are returned as-is. -/
def deleteItemFromList (itemId listId : String) (list : ProductList) :
    ProductList :=
  if list.id == listId then
    { list with customerProductListItems :=
        list.customerProductListItems.filter (fun x => x.id != itemId) }
  else list

/-- `deleteCustomerProductListItem(item, listId)` (only `item.id` is read,
passed here as `itemId`): issues the delete, throws on an error-shaped
response, otherwise removes the item from the matching list in local state
without requesting the updated list from the API. -/
def deleteCustomerProductListItem (snapshot : CustomerProductLists)
    (itemId listId : String) (deleteIsError : Bool) :
    List ApiCall × Except Unit CustomerProductLists :=
  ([ApiCall.deleteItem listId itemId],
   if deleteIsError then Except.error ()
   else Except.ok
     { snapshot with data := snapshot.data.map (deleteItemFromList itemId listId) })

/-! Concrete values used to exercise the definitions. -/

/-- A wishlist item: server id `i1`, product `p1`, quantity 3. -/
def wItem : ProductListItem := ⟨"i1", "p1", 3⟩

/-- A wishlist `l1` holding `wItem`. -/
def wWishlist : ProductList := ⟨"l1", "wish_list", [wItem]⟩

/-- A snapshot whose `data` is `[wWishlist]` plus one extra field. -/
def wSnapshot : CustomerProductLists := ⟨[wWishlist], [("total", "1")]⟩

/-- Queued add of product `p1` (already in the wishlist), quantity 2, with a
success callback, whose request chain succeeds. -/
def addExistingEvt : QueuedEvent := ⟨.add, "p1", 2, "", true, false, false⟩

/-- Queued add of product `p9` (not in the wishlist), quantity 2, with a
success callback, whose request chain succeeds. -/
def addNewEvt : QueuedEvent := ⟨.add, "p9", 2, "", true, false, false⟩

/-- Queued remove of item `i1` from list `l1`, succeeding. -/
def removeEvt : QueuedEvent := ⟨.remove, "i1", 0, "l1", true, false, false⟩

/-- Queued remove whose request chain throws; it carries an error callback. -/
def failingRemoveEvt : QueuedEvent := ⟨.remove, "i1", 0, "l1", false, true, true⟩

/-- Queued add of product `p1` (already in the wishlist) carrying no success
callback but an error callback, whose request chain succeeds. -/
def addNoCbEvt : QueuedEvent := ⟨.add, "p1", 2, "", false, true, false⟩

/-! Helper lemmas about the drain step. -/

/-- The processed-event record produced by a drain step is about the event
that was shifted off the queue. -/
theorem drainStep_event_eq (snapshot : Option CustomerProductLists)
    (wishlistType : String) (event : QueuedEvent) :
    (drainStep snapshot wishlistType event).1.event = event := by
  unfold drainStep
  repeat' split
  all_goals rfl

/-- When the event's request chain throws, the drain step does not terminate
the drain and routes the failure to the optional error callback. -/
theorem drainStep_requestFails (snapshot : Option CustomerProductLists)
    (wishlistType : String) (event : QueuedEvent)
    (h : event.requestFails = true) :
    (drainStep snapshot wishlistType event).2 = false ∧
    (drainStep snapshot wishlistType event).1.result =
      (if event.hasOnError then CallbackResult.errorCB else CallbackResult.noCB) := by
  unfold drainStep
  repeat' split
  all_goals simp_all

/-- C1, counterexample: enqueue add(productId `p1`, qty 2) when `p1` already
exists with qty 3.  The drain does issue the update request with body
quantity 5 = 3 + 2, but the success callback is invoked with the requested
quantity 2, not with the summed quantity 5, refuting the claim as stated. -/
theorem c1_counterexample :
    (processEventQueue (some wSnapshot) "wish_list" [addExistingEvt]).1.map
        (fun p => p.requests) =
      [[ApiCall.updateItem "l1" "i1" ⟨"p1", 1, 3 + 2, false, "product"⟩,
        ApiCall.getLists]] ∧
    (processEventQueue (some wSnapshot) "wish_list" [addExistingEvt]).1.map
        (fun p => p.result) =
      [CallbackResult.successCB (some 2)] ∧
    CallbackResult.successCB (some 2) ≠ CallbackResult.successCB (some (3 + 2)) := by
  decide

/-- C1, amended: for every queued add action whose product id matches an
existing wishlist item (with a success callback present and a succeeding
request chain), draining issues an update request whose body quantity is the
existing item's quantity plus the requested quantity, and invokes the
action's success callback with the requested quantity (not the sum). -/
theorem c1_add_existing_update (snapshot : Option CustomerProductLists)
    (wishlistType : String) (event : QueuedEvent) (rest : List QueuedEvent)
    (wishlist : ProductList) (productListItem : ProductListItem)
    (hw : getProductListPerType snapshot wishlistType = some wishlist)
    (ha : event.action = .add)
    (hf : wishlist.customerProductListItems.find?
        (fun item => item.productId == event.itemId) = some productListItem)
    (hr : event.requestFails = false)
    (hs : event.hasOnSuccess = true) :
    processEventQueue snapshot wishlistType (event :: rest) =
      ([⟨event,
         [ApiCall.updateItem wishlist.id productListItem.id
            (updateItemBody event.itemId productListItem event.itemQuantity),
          ApiCall.getLists],
         CallbackResult.successCB (some event.itemQuantity)⟩], rest) ∧
    (updateItemBody event.itemId productListItem event.itemQuantity).quantity =
      productListItem.quantity + event.itemQuantity := by
  have hstep : drainStep snapshot wishlistType event =
      (⟨event,
        [ApiCall.updateItem wishlist.id productListItem.id
           (updateItemBody event.itemId productListItem event.itemQuantity),
         ApiCall.getLists],
        CallbackResult.successCB (some event.itemQuantity)⟩, true) := by
    unfold drainStep
    rw [ha]
    dsimp only
    rw [hw]
    dsimp only
    rw [hf]
    dsimp only
    rw [hr, hs]
    simp
  exact ⟨by simp [processEventQueue, hstep], rfl⟩

/-- C1, witness: the amended theorem applied to the concrete scenario of the
counterexample (existing qty 3, requested qty 2). -/
theorem c1_witness :
    processEventQueue (some wSnapshot) "wish_list" (addExistingEvt :: []) =
      ([⟨addExistingEvt,
         [ApiCall.updateItem wWishlist.id wItem.id
            (updateItemBody addExistingEvt.itemId wItem addExistingEvt.itemQuantity),
          ApiCall.getLists],
         CallbackResult.successCB (some addExistingEvt.itemQuantity)⟩], []) ∧
    (updateItemBody addExistingEvt.itemId wItem addExistingEvt.itemQuantity).quantity =
      wItem.quantity + addExistingEvt.itemQuantity :=
  c1_add_existing_update (some wSnapshot) "wish_list" addExistingEvt []
    wWishlist wItem (by decide) (by decide) (by decide) (by decide) (by decide)

/-- C2, counterexample: with `p9` absent from the wishlist, the queue
`[addNewEvt, removeEvt]` is drained by a single invocation that processes
only the add (its success path executes `return`), leaving the remove
unprocessed in the queue — so one drain invocation does not process every
enqueued action. -/
theorem c2_counterexample :
    (processEventQueue (some wSnapshot) "wish_list" [addNewEvt, removeEvt]).1.map
        (fun p => p.event) = [addNewEvt] ∧
    (processEventQueue (some wSnapshot) "wish_list" [addNewEvt, removeEvt]).2 =
      [removeEvt] ∧
    ([removeEvt] : List QueuedEvent) ≠ [] := by
  decide

/-- C2, amended: a drain invocation processes queued actions strictly in the
order they were enqueued and sequentially (the processed records followed by
the leftover queue reconstitute the original queue), and it processes every
enqueued action whenever no step terminates the drain early — i.e. whenever
no add action completes successfully; a successful add executes `return`,
ending the invocation with the remaining actions still queued. -/
theorem c2_drain_order (snapshot : Option CustomerProductLists)
    (wishlistType : String) (queue : List QueuedEvent) :
    ((processEventQueue snapshot wishlistType queue).1.map (fun p => p.event)) ++
        (processEventQueue snapshot wishlistType queue).2 = queue ∧
    ((∀ e ∈ queue, (drainStep snapshot wishlistType e).2 = false) →
      (processEventQueue snapshot wishlistType queue).2 = []) := by
  induction queue with
  | nil => exact ⟨rfl, fun _ => rfl⟩
  | cons e rest ih =>
    cases hstep : (drainStep snapshot wishlistType e).2 with
    | true =>
      constructor
      · simp [processEventQueue, hstep, drainStep_event_eq]
      · intro hall
        have := hall e (List.mem_cons_self e rest)
        rw [hstep] at this
        exact absurd this (by decide)
    | false =>
      constructor
      · simp [processEventQueue, hstep, drainStep_event_eq, ih.1]
      · intro hall
        simp only [processEventQueue, hstep, if_false, Bool.false_eq_true]
        exact ih.2 (fun x hx => hall x (List.mem_cons_of_mem e hx))

/-- C2, witness: a queue of two remove actions (one failing) is fully
processed in order by one drain invocation. -/
theorem c2_witness :
    ((processEventQueue (some wSnapshot) "wish_list"
          [removeEvt, failingRemoveEvt]).1.map (fun p => p.event)) ++
        (processEventQueue (some wSnapshot) "wish_list"
          [removeEvt, failingRemoveEvt]).2 = [removeEvt, failingRemoveEvt] ∧
    (processEventQueue (some wSnapshot) "wish_list"
        [removeEvt, failingRemoveEvt]).2 = [] :=
  ⟨(c2_drain_order (some wSnapshot) "wish_list" [removeEvt, failingRemoveEvt]).1,
   (c2_drain_order (some wSnapshot) "wish_list" [removeEvt, failingRemoveEvt]).2
     (by decide)⟩

/-- C3: when a queued action's request chain throws, the drain catches the
error, invokes the action's optional error callback (no callback is invoked
when it is absent), and processes the remaining queued actions exactly as it
would have processed them alone — a failed action never halts the drain. -/
theorem c3_failed_action_continues (snapshot : Option CustomerProductLists)
    (wishlistType : String) (event : QueuedEvent) (rest : List QueuedEvent)
    (h : event.requestFails = true) :
    (processEventQueue snapshot wishlistType (event :: rest)).1 =
      (drainStep snapshot wishlistType event).1 ::
        (processEventQueue snapshot wishlistType rest).1 ∧
    (drainStep snapshot wishlistType event).1.event = event ∧
    (drainStep snapshot wishlistType event).1.result =
      (if event.hasOnError then CallbackResult.errorCB else CallbackResult.noCB) ∧
    (processEventQueue snapshot wishlistType (event :: rest)).2 =
      (processEventQueue snapshot wishlistType rest).2 := by
  obtain ⟨h2, h3⟩ := drainStep_requestFails snapshot wishlistType event h
  exact ⟨by simp [processEventQueue, h2],
         drainStep_event_eq snapshot wishlistType event, h3,
         by simp [processEventQueue, h2]⟩

/-- C3, witness: a failing remove followed by a succeeding remove — the
failing action's error callback is invoked and the drain continues. -/
theorem c3_witness :
    (processEventQueue (some wSnapshot) "wish_list"
        (failingRemoveEvt :: [removeEvt])).1 =
      (drainStep (some wSnapshot) "wish_list" failingRemoveEvt).1 ::
        (processEventQueue (some wSnapshot) "wish_list" [removeEvt]).1 ∧
    (drainStep (some wSnapshot) "wish_list" failingRemoveEvt).1.event =
      failingRemoveEvt ∧
    (drainStep (some wSnapshot) "wish_list" failingRemoveEvt).1.result =
      (if failingRemoveEvt.hasOnError then CallbackResult.errorCB
       else CallbackResult.noCB) ∧
    (processEventQueue (some wSnapshot) "wish_list"
        (failingRemoveEvt :: [removeEvt])).2 =
      (processEventQueue (some wSnapshot) "wish_list" [removeEvt]).2 :=
  c3_failed_action_continues (some wSnapshot) "wish_list" failingRemoveEvt
    [removeEvt] (by decide)

/-- C4: after a successful delete request, `deleteCustomerProductListItem`
updates local state to the snapshot whose matching list (by list id) has the
removed item filtered out by item id, issues no list re-fetch (`getLists`
never appears among its calls), and in the matching list no item with the
removed id remains. -/
theorem c4_delete_filters_locally (snapshot : CustomerProductLists)
    (itemId listId : String) :
    (deleteCustomerProductListItem snapshot itemId listId false).2 =
      Except.ok
        { snapshot with
          data := snapshot.data.map (deleteItemFromList itemId listId) } ∧
    (∀ call ∈ (deleteCustomerProductListItem snapshot itemId listId false).1,
      call ≠ ApiCall.getLists) ∧
    (∀ list : ProductList, list.id = listId →
      (deleteItemFromList itemId listId list).customerProductListItems =
        list.customerProductListItems.filter (fun x => x.id != itemId)) ∧
    (∀ list : ProductList, list.id = listId →
      ∀ item ∈ (deleteItemFromList itemId listId list).customerProductListItems,
        item.id ≠ itemId) := by
  refine ⟨rfl, ?_, ?_, ?_⟩
  · intro call hmem
    simp only [deleteCustomerProductListItem, List.mem_singleton] at hmem
    simp [hmem]
  · intro list hid
    simp [deleteItemFromList, hid]
  · intro list hid item hmem
    simp [deleteItemFromList, hid, List.mem_filter] at hmem
    exact hmem.2

/-- C4, witness: deleting item `i1` from list `l1` of the concrete snapshot
empties the wishlist's item collection. -/
theorem c4_witness :
    (deleteCustomerProductListItem wSnapshot "i1" "l1" false).2 =
      Except.ok
        { wSnapshot with
          data := wSnapshot.data.map (deleteItemFromList "i1" "l1") } ∧
    (deleteItemFromList "i1" "l1" wWishlist).customerProductListItems = [] := by
  refine ⟨(c4_delete_filters_locally wSnapshot "i1" "l1").1, ?_⟩
  rw [(c4_delete_filters_locally wSnapshot "i1" "l1").2.2.1 wWishlist (by decide)]
  decide

/-- C5: each direct store-mutation or fetch call raises to the caller when
its API response is error-shaped, and the error-shaped call is issued
exactly once (no retry); for `fetchOrCreateProductLists` both an error-shaped
fetch and an error-shaped create raise. -/
theorem c5_raises_on_error (listType : String) (item : ItemRequestBody)
    (listId itemId : String) (payload : CustomerProductLists)
    (refetch : FetchListsResponse) (snapshot : CustomerProductLists) :
    (getCustomerProductLists ⟨true, payload⟩).2 = Except.error () ∧
    (getCustomerProductLists ⟨true, payload⟩).1 = [ApiCall.getLists] ∧
    (createCustomerProductList listType true refetch).2 = Except.error () ∧
    (createCustomerProductList listType true refetch).1 =
      [ApiCall.createList listType] ∧
    (createCustomerProductListItem item listId true refetch).2 =
      Except.error () ∧
    (createCustomerProductListItem item listId true refetch).1 =
      [ApiCall.createItem listId item] ∧
    (updateCustomerProductListItem item listId itemId true refetch).2 =
      Except.error () ∧
    (updateCustomerProductListItem item listId itemId true refetch).1 =
      [ApiCall.updateItem listId itemId item] ∧
    (fetchOrCreateProductLists listType ⟨true, payload⟩ false refetch).2 =
      Except.error () ∧
    ((∀ list ∈ payload.data, list.type ≠ listType) →
      (fetchOrCreateProductLists listType ⟨false, payload⟩ true refetch).2 =
        Except.error ()) ∧
    (deleteCustomerProductListItem snapshot itemId listId true).2 =
      Except.error () ∧
    (deleteCustomerProductListItem snapshot itemId listId true).1 =
      [ApiCall.deleteItem listId itemId] := by
  refine ⟨rfl, rfl, rfl, rfl, rfl, rfl, rfl, rfl, rfl, ?_, rfl, rfl⟩
  intro hall
  have hany : payload.data.any (fun list => list.type == listType) = false := by
    rw [List.any_eq_false]
    intro x hx
    simpa using hall x hx
  simp [fetchOrCreateProductLists, hany]

/-- C5, witness: an error-shaped create after a fetch returning no list of
the requested type raises from `fetchOrCreateProductLists`. -/
theorem c5_witness :
    (fetchOrCreateProductLists "wish_list" ⟨false, ⟨[], []⟩⟩ true
        ⟨false, wSnapshot⟩).2 = Except.error () :=
  (c5_raises_on_error "wish_list" (addItemBody "p1" 1) "l1" "i1" ⟨[], []⟩
      ⟨false, wSnapshot⟩ wSnapshot).2.2.2.2.2.2.2.2.2.1 (by decide)

/-- C6: `fetchOrCreateProductLists(type)` fetches all lists; when some
fetched list matches the requested type it stores the fetched response as
the snapshot with no further calls, and when no fetched list matches it
creates a list of that type and re-fetches the full collection, storing the
re-fetched response. -/
theorem c6_fetch_or_create (listType : String)
    (fetchResponse refetch : FetchListsResponse)
    (hfetch : fetchResponse.isError = false)
    (hrefetch : refetch.isError = false) :
    ((∃ list ∈ fetchResponse.payload.data, list.type = listType) →
      fetchOrCreateProductLists listType fetchResponse false refetch =
        ([ApiCall.getLists], Except.ok fetchResponse.payload)) ∧
    ((∀ list ∈ fetchResponse.payload.data, list.type ≠ listType) →
      fetchOrCreateProductLists listType fetchResponse false refetch =
        ([ApiCall.getLists, ApiCall.createList listType, ApiCall.getLists],
         Except.ok refetch.payload)) := by
  constructor
  · rintro ⟨list, hmem, htype⟩
    have hne : fetchResponse.payload.data.length ≠ 0 := by
      intro hlen
      rw [List.length_eq_zero] at hlen
      rw [hlen] at hmem
      exact (List.not_mem_nil list) hmem
    have hany : fetchResponse.payload.data.any
        (fun l => l.type == listType) = true :=
      List.any_eq_true.mpr ⟨list, hmem, by simp [htype]⟩
    simp [fetchOrCreateProductLists, hfetch, hany, hne]
  · intro hall
    have hany : fetchResponse.payload.data.any
        (fun l => l.type == listType) = false := by
      rw [List.any_eq_false]
      intro x hx
      simpa using hall x hx
    simp [fetchOrCreateProductLists, hfetch, hany, getCustomerProductLists,
      hrefetch]

/-- C6, witness: fetching a snapshot that already contains a list of type
`wish_list` stores the fetched response directly. -/
theorem c6_witness :
    fetchOrCreateProductLists "wish_list" ⟨false, wSnapshot⟩ false
        ⟨false, wSnapshot⟩ =
      ([ApiCall.getLists], Except.ok wSnapshot) :=
  (c6_fetch_or_create "wish_list" ⟨false, wSnapshot⟩ ⟨false, wSnapshot⟩ rfl
    rfl).1 ⟨wWishlist, by decide, by decide⟩

/-- C7: the `useEffect` drain trigger fires only when the event queue is
non-empty and the snapshot is present with at least one list in its `data`
collection — the queue is never drained on an empty or absent snapshot. -/
theorem c7_drain_guard (queue : List QueuedEvent)
    (snapshot : Option CustomerProductLists)
    (h : drainTriggerFires queue snapshot = true) :
    queue ≠ [] ∧ ∃ s, snapshot = some s ∧ s.data ≠ [] := by
  unfold drainTriggerFires at h
  rw [Bool.and_eq_true] at h
  obtain ⟨h1, h2⟩ := h
  constructor
  · intro hq
    rw [hq] at h1
    exact absurd h1 (by decide)
  · cases snapshot with
    | none => exact absurd h2 (by decide)
    | some s =>
      dsimp only at h2
      refine ⟨s, rfl, ?_⟩
      intro hd
      rw [hd] at h2
      exact absurd h2 (by decide)

/-- C7, witness: the trigger fires on a non-empty queue with the concrete
non-empty snapshot. -/
theorem c7_witness :
    ([removeEvt] : List QueuedEvent) ≠ [] ∧
    ∃ s, (some wSnapshot : Option CustomerProductLists) = some s ∧
      s.data ≠ [] :=
  c7_drain_guard [removeEvt] (some wSnapshot) (by decide)

/-- C8: for a queued add action whose product id matches no existing
wishlist item (with a success callback present and a succeeding request
chain), draining issues a create request whose body quantity is the
requested quantity and invokes the action's success callback with the
requested quantity. -/
theorem c8_add_new_creates (snapshot : Option CustomerProductLists)
    (wishlistType : String) (event : QueuedEvent) (rest : List QueuedEvent)
    (wishlist : ProductList)
    (hw : getProductListPerType snapshot wishlistType = some wishlist)
    (ha : event.action = .add)
    (hf : wishlist.customerProductListItems.find?
        (fun item => item.productId == event.itemId) = none)
    (hr : event.requestFails = false)
    (hs : event.hasOnSuccess = true) :
    processEventQueue snapshot wishlistType (event :: rest) =
      ([⟨event,
         [ApiCall.createItem wishlist.id
            (addItemBody event.itemId event.itemQuantity),
          ApiCall.getLists],
         CallbackResult.successCB (some event.itemQuantity)⟩], rest) ∧
    (addItemBody event.itemId event.itemQuantity).quantity =
      event.itemQuantity := by
  have hstep : drainStep snapshot wishlistType event =
      (⟨event,
        [ApiCall.createItem wishlist.id
           (addItemBody event.itemId event.itemQuantity),
         ApiCall.getLists],
        CallbackResult.successCB (some event.itemQuantity)⟩, true) := by
    unfold drainStep
    rw [ha]
    dsimp only
    rw [hw]
    dsimp only
    rw [hf]
    dsimp only
    rw [hr, hs]
    simp
  exact ⟨by simp [processEventQueue, hstep], rfl⟩

/-- C8, witness: adding product `p9` (absent from the wishlist) with
requested quantity 2 creates the item and reports 2 to the callback. -/
theorem c8_witness :
    processEventQueue (some wSnapshot) "wish_list" (addNewEvt :: []) =
      ([⟨addNewEvt,
         [ApiCall.createItem wWishlist.id
            (addItemBody addNewEvt.itemId addNewEvt.itemQuantity),
          ApiCall.getLists],
         CallbackResult.successCB (some addNewEvt.itemQuantity)⟩], []) ∧
    (addItemBody addNewEvt.itemId addNewEvt.itemQuantity).quantity =
      addNewEvt.itemQuantity :=
  c8_add_new_creates (some wSnapshot) "wish_list" addNewEvt [] wWishlist
    (by decide) (by decide) (by decide) (by decide) (by decide)

/-- C9: for a queued add action on a product already in the wishlist that
carries no success callback, even though the update request chain succeeds,
the unguarded `onSuccess` call throws and the drain invokes the action's
error callback; the drain then continues with the remaining actions. -/
theorem c9_missing_success_callback (snapshot : Option CustomerProductLists)
    (wishlistType : String) (event : QueuedEvent) (rest : List QueuedEvent)
    (wishlist : ProductList) (productListItem : ProductListItem)
    (hw : getProductListPerType snapshot wishlistType = some wishlist)
    (ha : event.action = .add)
    (hf : wishlist.customerProductListItems.find?
        (fun item => item.productId == event.itemId) = some productListItem)
    (hr : event.requestFails = false)
    (hs : event.hasOnSuccess = false)
    (he : event.hasOnError = true) :
    processEventQueue snapshot wishlistType (event :: rest) =
      (⟨event,
        [ApiCall.updateItem wishlist.id productListItem.id
           (updateItemBody event.itemId productListItem event.itemQuantity),
         ApiCall.getLists],
        CallbackResult.errorCB⟩ ::
          (processEventQueue snapshot wishlistType rest).1,
       (processEventQueue snapshot wishlistType rest).2) := by
  have hstep : drainStep snapshot wishlistType event =
      (⟨event,
        [ApiCall.updateItem wishlist.id productListItem.id
           (updateItemBody event.itemId productListItem event.itemQuantity),
         ApiCall.getLists],
        CallbackResult.errorCB⟩, false) := by
    unfold drainStep
    rw [ha]
    dsimp only
    rw [hw]
    dsimp only
    rw [hf]
    dsimp only
    rw [hr, hs, he]
    simp
  simp [processEventQueue, hstep]

/-- C9, witness: the concrete add of existing product `p1` without a success
callback invokes its error callback despite the successful update. -/
theorem c9_witness :
    processEventQueue (some wSnapshot) "wish_list" (addNoCbEvt :: []) =
      (⟨addNoCbEvt,
        [ApiCall.updateItem wWishlist.id wItem.id
           (updateItemBody addNoCbEvt.itemId wItem addNoCbEvt.itemQuantity),
         ApiCall.getLists],
        CallbackResult.errorCB⟩ ::
          (processEventQueue (some wSnapshot) "wish_list" []).1,
       (processEventQueue (some wSnapshot) "wish_list" []).2) :=
  c9_missing_success_callback (some wSnapshot) "wish_list" addNoCbEvt []
    wWishlist wItem (by decide) (by decide) (by decide) (by decide)
    (by decide) (by decide)

/-- C10: whatever snapshot `deleteCustomerProductListItem` successfully
produces preserves the snapshot's non-`data` fields, keeps the same number
of lists, and keeps every list whose id differs from the given list id
unchanged (it remains in the new `data` as-is, at the same position). -/
theorem c10_delete_frame (snapshot : CustomerProductLists)
    (itemId listId : String) (deleteIsError : Bool)
    (snapshot2 : CustomerProductLists)
    (h : (deleteCustomerProductListItem snapshot itemId listId
        deleteIsError).2 = Except.ok snapshot2) :
    snapshot2.extra = snapshot.extra ∧
    snapshot2.data.length = snapshot.data.length ∧
    ∀ i : Nat, ∀ hi : i < snapshot.data.length,
      (snapshot.data.get ⟨i, hi⟩).id ≠ listId →
        ∀ hi2 : i < snapshot2.data.length,
          snapshot2.data.get ⟨i, hi2⟩ = snapshot.data.get ⟨i, hi⟩ := by
  unfold deleteCustomerProductListItem at h
  cases deleteIsError with
  | true => exact absurd h (by simp)
  | false =>
    simp only [if_false, Bool.false_eq_true, Except.ok.injEq] at h
    subst h
    refine ⟨rfl, by simp, ?_⟩
    intro i hi hne hi2
    have hmap : ({ snapshot with
        data := snapshot.data.map (deleteItemFromList itemId listId) } :
          CustomerProductLists).data.get ⟨i, hi2⟩ =
        deleteItemFromList itemId listId (snapshot.data.get ⟨i, hi⟩) := by
      simp [List.getElem_map]
    rw [hmap, deleteItemFromList, if_neg (by simpa using hne)]

/-- C10, witness: deleting with a list id matching no list leaves the
concrete snapshot's lists and extra fields intact. -/
theorem c10_witness :
    ({ wSnapshot with
        data := wSnapshot.data.map (deleteItemFromList "i1" "l9") } :
          CustomerProductLists).extra = wSnapshot.extra ∧
    ({ wSnapshot with
        data := wSnapshot.data.map (deleteItemFromList "i1" "l9") } :
          CustomerProductLists).data.length = wSnapshot.data.length ∧
    ∀ i : Nat, ∀ hi : i < wSnapshot.data.length,
      (wSnapshot.data.get ⟨i, hi⟩).id ≠ "l9" →
        ∀ hi2 : i < ({ wSnapshot with
            data := wSnapshot.data.map (deleteItemFromList "i1" "l9") } :
              CustomerProductLists).data.length,
          ({ wSnapshot with
              data := wSnapshot.data.map (deleteItemFromList "i1" "l9") } :
                CustomerProductLists).data.get ⟨i, hi2⟩ =
            wSnapshot.data.get ⟨i, hi⟩ :=
  c10_delete_frame wSnapshot "i1" "l9" false
    { wSnapshot with
      data := wSnapshot.data.map (deleteItemFromList "i1" "l9") } rfl

end PwaKit
